import Mathlib

/-!
Verification of the chat-relay backend (`app.py`).

The development shallowly embeds the Flask handler `chat`, the signing
helper `generate_signature`, and the library primitives they delegate to
(UTF-8 encoding, SHA-256, HMAC, base64, `json.dumps`).  Non-deterministic
inputs (wall clock, UUID source, upstream HTTP outcome, request payload)
are explicit parameters of the embedded handler, following the spec's own
advice that tests inject the clock and the identifier source.
-/

set_option maxRecDepth 4096

namespace MovieBackend

/-- JSON values, as produced by Python's `json` module / Flask's `get_json`. -/
inductive Json where
  | null : Json
  | bool : Bool → Json
  | num : Int → Json
  | str : String → Json
  | arr : List Json → Json
  | obj : List (String × Json) → Json

-- Structural equality test on JSON values (Python `==` on parsed JSON).
mutual
def jsonBeq : Json → Json → Bool
  | Json.null, Json.null => true
  | Json.bool a, Json.bool b => a == b
  | Json.num a, Json.num b => a == b
  | Json.str a, Json.str b => a == b
  | Json.arr a, Json.arr b => jsonListBeq a b
  | Json.obj a, Json.obj b => jsonFieldsBeq a b
  | _, _ => false

def jsonListBeq : List Json → List Json → Bool
  | [], [] => true
  | x :: xs, y :: ys => jsonBeq x y && jsonListBeq xs ys
  | _, _ => false

def jsonFieldsBeq : List (String × Json) → List (String × Json) → Bool
  | [], [] => true
  | (k1, v1) :: xs, (k2, v2) :: ys => k1 == k2 && jsonBeq v1 v2 && jsonFieldsBeq xs ys
  | _, _ => false
end

instance : BEq Json := ⟨jsonBeq⟩

/-- UTF-8 encoding of a single code point (Python `bytes(-, 'UTF-8')`). -/
def utf8EncodeCharBytes (c : Char) : List Nat :=
  let n := c.toNat
  if n < 128 then [n]
  else if n < 2048 then [192 + n / 64, 128 + n % 64]
  else if n < 65536 then [224 + n / 4096, 128 + n / 64 % 64, 128 + n % 64]
  else [240 + n / 262144, 128 + n / 4096 % 64, 128 + n / 64 % 64, 128 + n % 64]

/-- UTF-8 bytes of a string, as natural numbers below 256. -/
def utf8Bytes (s : String) : List Nat :=
  s.data.flatMap utf8EncodeCharBytes

/-- Lower-case hexadecimal digit. -/
def hexDigit (n : Nat) : Char :=
  "0123456789abcdef".data.getD n '0'

/-- Escaping of one character inside a JSON string literal, as done by
`json.dumps(-, ensure_ascii=False)`: backslash, quote and the named control
characters get two-character escapes, other control characters a `\u00xx`
escape, and everything else (including non-ASCII) is kept verbatim. -/
def pyEscapeChar (c : Char) : List Char :=
  if c = '"' then ['\\', '"']
  else if c = '\\' then ['\\', '\\']
  else if c = '\n' then ['\\', 'n']
  else if c = '\r' then ['\\', 'r']
  else if c = '\t' then ['\\', 't']
  else if c.toNat = 8 then ['\\', 'b']
  else if c.toNat = 12 then ['\\', 'f']
  else if c.toNat < 32 then ['\\', 'u', '0', '0', hexDigit (c.toNat / 16), hexDigit (c.toNat % 16)]
  else [c]

/-- A JSON string literal: quotes around the escaped characters. -/
def dumpsStringLit (s : String) : String :=
  "\"" ++ String.mk (s.data.flatMap pyEscapeChar) ++ "\""

-- `json.dumps(-, ensure_ascii=False)` with the default separators
-- `', '` and `': '`, emitting object fields in insertion order.
mutual
def dumps : Json → String
  | Json.null => "null"
  | Json.bool true => "true"
  | Json.bool false => "false"
  | Json.num n => toString n
  | Json.str s => dumpsStringLit s
  | Json.arr xs => "[" ++ dumpsElems xs ++ "]"
  | Json.obj fs => "\x7b" ++ dumpsPairs fs ++ "\x7d"

def dumpsElems : List Json → String
  | [] => ""
  | [x] => dumps x
  | x :: y :: rest => dumps x ++ ", " ++ dumpsElems (y :: rest)

def dumpsPairs : List (String × Json) → String
  | [] => ""
  | [(k, v)] => dumpsStringLit k ++ ": " ++ dumps v
  | (k, v) :: p :: rest => dumpsStringLit k ++ ": " ++ dumps v ++ ", " ++ dumpsPairs (p :: rest)
end

/-! ### SHA-256 (`hashlib.sha256`) -/

/-- 32-bit modular addition. -/
def add32 (a b : Nat) : Nat := (a + b) % 4294967296

/-- 32-bit right rotation. -/
def rotr32 (n x : Nat) : Nat := ((x >>> n) ||| (x <<< (32 - n))) % 4294967296

def bigSigma0 (x : Nat) : Nat := rotr32 2 x ^^^ rotr32 13 x ^^^ rotr32 22 x

def bigSigma1 (x : Nat) : Nat := rotr32 6 x ^^^ rotr32 11 x ^^^ rotr32 25 x

def smallSigma0 (x : Nat) : Nat := rotr32 7 x ^^^ rotr32 18 x ^^^ (x >>> 3)

def smallSigma1 (x : Nat) : Nat := rotr32 17 x ^^^ rotr32 19 x ^^^ (x >>> 10)

def chWord (x y z : Nat) : Nat := (x &&& y) ^^^ ((x ^^^ 4294967295) &&& z)

def majWord (x y z : Nat) : Nat := (x &&& y) ^^^ (x &&& z) ^^^ (y &&& z)

/-- The eight 32-bit words of a SHA-256 hash state. -/
structure Sha256State where
  a : Nat
  b : Nat
  c : Nat
  d : Nat
  e : Nat
  f : Nat
  g : Nat
  h : Nat

/-- SHA-256 initial hash value. -/
def sha256Init : Sha256State :=
  ⟨1779033703,
   3144134277,
   1013904242,
   2773480762,
   1359893119,
   2600822924,
   528734635,
   1541459225⟩

/-- SHA-256 round constants. -/
def sha256K : List Nat :=
  [1116352408, 1899447441, 3049323471, 3921009573,
   961987163, 1508970993, 2453635748, 2870763221,
   3624381080, 310598401, 607225278, 1426881987,
   1925078388, 2162078206, 2614888103, 3248222580,
   3835390401, 4022224774, 264347078, 604807628,
   770255983, 1249150122, 1555081692, 1996064986,
   2554220882, 2821834349, 2952996808, 3210313671,
   3336571891, 3584528711, 113926993, 338241895,
   666307205, 773529912, 1294757372, 1396182291,
   1695183700, 1986661051, 2177026350, 2456956037,
   2730485921, 2820302411, 3259730800, 3345764771,
   3516065817, 3600352804, 4094571909, 275423344,
   430227734, 506948616, 659060556, 883997877,
   958139571, 1322822218, 1537002063, 1747873779,
   1955562222, 2024104815, 2227730452, 2361852424,
   2428436474, 2756734187, 3204031479, 3329325298]

/-- Group 64 message bytes into 16 big-endian 32-bit words. -/
def wordsOfBlock : List Nat → List Nat
  | b0 :: b1 :: b2 :: b3 :: rest => (((b0 * 256 + b1) * 256 + b2) * 256 + b3) :: wordsOfBlock rest
  | _ => []

/-- Extend the 16-word schedule by `n` further words. -/
def extendSchedule (w : List Nat) : Nat → List Nat
  | 0 => w
  | n + 1 =>
    let t := w.length
    let next := add32 (add32 (smallSigma1 (w.getD (t - 2) 0)) (w.getD (t - 7) 0))
      (add32 (smallSigma0 (w.getD (t - 15) 0)) (w.getD (t - 16) 0))
    extendSchedule (w ++ [next]) n

/-- One round of the SHA-256 compression function. -/
def sha256Round (s : Sha256State) (k w : Nat) : Sha256State :=
  let t1 := add32 s.h (add32 (bigSigma1 s.e) (add32 (chWord s.e s.f s.g) (add32 k w)))
  let t2 := add32 (bigSigma0 s.a) (majWord s.a s.b s.c)
  ⟨add32 t1 t2, s.a, s.b, s.c, add32 s.d t1, s.e, s.f, s.g⟩

/-- Process one 64-byte block. -/
def compressBlock (s : Sha256State) (block : List Nat) : Sha256State :=
  let w := extendSchedule (wordsOfBlock block) 48
  let t := (w.zip sha256K).foldl (fun st wk => sha256Round st wk.2 wk.1) s
  ⟨add32 s.a t.a, add32 s.b t.b, add32 s.c t.c, add32 s.d t.d,
   add32 s.e t.e, add32 s.f t.f, add32 s.g t.g, add32 s.h t.h⟩

/-- Fixed-width big-endian byte serialization. -/
def toBytesBE : Nat → Nat → List Nat
  | 0, _ => []
  | n + 1, value => (value / 256 ^ n) % 256 :: toBytesBE n value

/-- SHA-256 padding: `0x80`, zeros to 56 mod 64, then the 64-bit bit length. -/
def sha256Pad (msg : List Nat) : List Nat :=
  msg ++ [128] ++ List.replicate ((119 - msg.length % 64) % 64) 0 ++ toBytesBE 8 (8 * msg.length)

/-- Split a padded message into 64-byte blocks. -/
def chunks64 : List Nat → List (List Nat)
  | [] => []
  | x :: xs => (x :: xs).take 64 :: chunks64 ((x :: xs).drop 64)
termination_by l => l.length
decreasing_by simp; omega

/-- The four big-endian bytes of a 32-bit word. -/
def word32Bytes (v : Nat) : List Nat :=
  [v / 16777216 % 256, v / 65536 % 256, v / 256 % 256, v % 256]

/-- Serialize a hash state to its 32 digest bytes. -/
def stateBytes (s : Sha256State) : List Nat :=
  word32Bytes s.a ++ word32Bytes s.b ++ word32Bytes s.c ++ word32Bytes s.d ++
  word32Bytes s.e ++ word32Bytes s.f ++ word32Bytes s.g ++ word32Bytes s.h

/-- SHA-256 digest of a byte string. -/
def sha256 (msg : List Nat) : List Nat :=
  stateBytes ((chunks64 (sha256Pad msg)).foldl compressBlock sha256Init)

/-! ### HMAC-SHA256 (`hmac.new(key, msg, hashlib.sha256).digest()`) -/

/-- HMAC-SHA256 (RFC 2104 with block size 64). -/
def hmacSha256 (key msg : List Nat) : List Nat :=
  let key1 := if 64 < key.length then sha256 key else key
  let keyPadded := key1 ++ List.replicate (64 - key1.length) 0
  let ipadKey := keyPadded.map (fun b => b ^^^ 0x36)
  let opadKey := keyPadded.map (fun b => b ^^^ 0x5c)
  sha256 (opadKey ++ sha256 (ipadKey ++ msg))

/-! ### Base64 (`base64.b64encode`, standard alphabet with `=` padding) -/

def b64Alphabet : List Char :=
  "ABCDEFGHIJKLMNOPQRSTUVWXYZabcdefghijklmnopqrstuvwxyz0123456789+/".data

/-- The base64 character of a six-bit value. -/
def sixToChar (i : Nat) : Char := b64Alphabet.getD i 'A'

/-- Position of a character in a character list. -/
def charPos (c : Char) : List Char → Nat
  | [] => 0
  | x :: xs => if x = c then 0 else charPos c xs + 1

/-- The six-bit value of a base64 character. -/
def charToSix (c : Char) : Nat := charPos c b64Alphabet

/-- Standard base64 encoding of a byte string. -/
def b64encodeBytes : List Nat → List Char
  | [] => []
  | [a] => [sixToChar (a / 4), sixToChar (a % 4 * 16), '=', '=']
  | [a, b] => [sixToChar (a / 4), sixToChar (a % 4 * 16 + b / 16), sixToChar (b % 16 * 4), '=']
  | a :: b :: c :: rest =>
    sixToChar (a / 4) :: sixToChar (a % 4 * 16 + b / 16) :: sixToChar (b % 16 * 4 + c / 64) ::
      sixToChar (c % 64) :: b64encodeBytes rest

/-- Standard base64 decoding (of well-formed encodings). -/
def b64decodeChars : List Char → List Nat
  | c1 :: c2 :: c3 :: c4 :: rest =>
    let s1 := charToSix c1
    let s2 := charToSix c2
    if c3 = '=' then [s1 * 4 + s2 / 16]
    else
      let s3 := charToSix c3
      if c4 = '=' then [s1 * 4 + s2 / 16, s2 % 16 * 16 + s3 / 4]
      else
        (s1 * 4 + s2 / 16) :: (s2 % 16 * 16 + s3 / 4) :: (s3 % 4 * 64 + charToSix c4) ::
          b64decodeChars rest
  | _ => []

/-- Base64 encoding as a string, `base64.b64encode(-).decode('UTF-8')`. -/
def b64encodeString (bytes : List Nat) : String := String.mk (b64encodeBytes bytes)

/-! ### `generate_signature` (`app.py`, lines 21-34) -/

/-- Function `generate_signature(secret_key, request_body_string)`: HMAC-SHA256 over the
UTF-8 bytes of the body string, keyed by the UTF-8 bytes of the secret,
base64-encoded. -/
def generate_signature (secret_key request_body_string : String) : String :=
  let secret_key_bytes := utf8Bytes secret_key
  let request_body_bytes := utf8Bytes request_body_string
  let signature := hmacSha256 secret_key_bytes request_body_bytes
  b64encodeString signature

/-! ### The `/chat` handler (`app.py`, lines 47-136)

Non-deterministic inputs are explicit parameters: the parsed request body
(`request.get_json(silent=True)`, `none` when the body is not parseable JSON),
the generated UUID string, the millisecond wall-clock reading, and the outcome
of the upstream `requests.post` call. -/

/-- The process-wide configuration read from the environment at startup:
`CHATBOT_INVOKE_URL` and `CHATBOT_SECRET_KEY` (`none` when the variable is
unset). -/
structure Config where
  invokeUrl : Option String
  secretKey : Option String

/-- Python truthiness of an optional string (`not CLOVA_INVOKE_URL`):
`None` and the empty string are falsy. -/
def pyTruthy : Option String → Bool
  | none => false
  | some s => if s = "" then false else true

/-- Python `str.strip()` membership test for the characters it removes:
the code points with `str.isspace()` true — ASCII whitespace 0x09-0x0d and
0x20, the separator controls 0x1c-0x1f, NEL 0x85, NBSP 0xa0, Ogham space
mark 0x1680, the Unicode space separators 0x2000-0x200a, line and
paragraph separators 0x2028-0x2029, narrow no-break space 0x202f, medium
mathematical space 0x205f, and ideographic space 0x3000. -/
def pyIsSpace (c : Char) : Bool :=
  let n := c.toNat
  (9 ≤ n && n ≤ 13) || n = 32 || (28 ≤ n && n ≤ 31) || n = 133 || n = 160 ||
    n = 5760 || (8192 ≤ n && n ≤ 8202) || n = 8232 || n = 8233 || n = 8239 ||
    n = 8287 || n = 12288

/-- Python `str.strip()`: drop leading and trailing whitespace (the full
Unicode whitespace set of `pyIsSpace`). -/
def stripString (s : String) : String :=
  String.mk (((s.data.dropWhile pyIsSpace).reverse.dropWhile pyIsSpace).reverse)

/-- Outcome of the upstream `requests.post` call: either a delivered HTTP
response (with `none` as body when the payload is not parseable JSON), or a
network-level failure with no response attached (timeout, DNS failure,
connection refused).  For status codes whose body the HTTP client forces
empty (1xx, 204, 304: `http.client` sets `length = 0`), the empty payload
is not parseable JSON, so in reachable program states such a response
always carries `none` as its body. -/
inductive UpstreamResult where
  | noResponse : UpstreamResult
  | response : Nat → Option Json → UpstreamResult

/-- An HTTP response returned by the handler: status code and JSON body. -/
structure HttpResponse where
  status : Nat
  body : Json

/-- The outbound POST issued to the upstream API: target URL, the two headers
set by the code, and the transmitted body string. -/
structure OutboundRequest where
  url : String
  contentType : String
  signature : String
  body : String

/-- What one `/chat` invocation produces: the HTTP response to the caller and
the outbound upstream request, `none` when no network call was attempted. -/
structure ChatResult where
  response : HttpResponse
  outbound : Option OutboundRequest

/-- Flask response body `jsonify({'reply': s})`. -/
def replyObj (s : String) : Json := Json.obj [("reply", Json.str s)]

/-- The request body dict built on lines 69-80, with Python 3.7 dict
insertion order. -/
def buildEnvelope (uuid : String) (timestampMillis : Nat) (msg : String) : Json :=
  Json.obj
    [("version", Json.str "v2"),
     ("userId", Json.str uuid),
     ("timestamp", Json.num (Int.ofNat timestampMillis)),
     ("bubbles", Json.arr [Json.obj [("type", Json.str "text"),
        ("data", Json.obj [("description", Json.str msg)])]]),
     ("event", Json.str "send")]

/-- Python exception marker: any exception caught by the handler's
catch-all `except Exception` branch. -/
def pyExc : Unit := ()

/-- Whether `needle` occurs at the start of `hay`. -/
def startsWithSeq : List Char → List Char → Bool
  | [], _ => true
  | _ :: _, [] => false
  | n :: ns, h :: hs => n == h && startsWithSeq ns hs

/-- Whether `needle` occurs contiguously anywhere in `hay`
(Python substring containment). -/
def containsSeq (needle : List Char) : List Char → Bool
  | [] => needle.isEmpty
  | h :: hs => startsWithSeq needle (h :: hs) || containsSeq needle hs

/-- Python `'key' in value` on a JSON value: key membership for dicts,
element membership for lists, substring test for strings; a `TypeError`
for every other value. -/
def pyContainsKey (key : String) : Json → Except Unit Bool
  | Json.obj fields => Except.ok (fields.lookup key).isSome
  | Json.arr xs => Except.ok (xs.contains (Json.str key))
  | Json.str s => Except.ok (containsSeq key.data s.data)
  | _ => Except.error pyExc

/-- Python `value['key']`: dict lookup (`KeyError` when absent); a
`TypeError` for every non-dict value. -/
def pyGetKey (v : Json) (key : String) : Except Unit Json :=
  match v with
  | Json.obj fields =>
    match fields.lookup key with
    | some x => Except.ok x
    | none => Except.error pyExc
  | _ => Except.error pyExc

/-- Python `len(value)`: length of strings and lists, number of keys of
dicts; a `TypeError` for every other value. -/
def pyLen : Json → Except Unit Nat
  | Json.str s => Except.ok s.length
  | Json.arr xs => Except.ok xs.length
  | Json.obj fields => Except.ok fields.length
  | _ => Except.error pyExc

/-- Python `value[0]`: head of a list (`IndexError` when empty), first
character of a string; a `KeyError` for dicts (JSON keys are strings) and a
`TypeError` for every other value. -/
def pyGetFirst : Json → Except Unit Json
  | Json.arr (x :: _) => Except.ok x
  | Json.str s =>
    match s.data with
    | c :: _ => Except.ok (Json.str (String.mk [c]))
    | [] => Except.error pyExc
  | _ => Except.error pyExc

/-- Lines 109-112: `if 'bubbles' in response_data and len(response_data['bubbles']) > 0:
bot_reply = response_data['bubbles'][0]['data']['description'] else: <fallback>`,
with any raised exception (KeyError, TypeError, IndexError) propagated as
`Except.error`. -/
def extractBotReply (response_data : Json) : Except Unit Json :=
  match pyContainsKey "bubbles" response_data with
  | Except.error e => Except.error e
  | Except.ok false => Except.ok (Json.str "죄송합니다. 응답을 생성할 수 없습니다.")
  | Except.ok true =>
    match pyGetKey response_data "bubbles" with
    | Except.error e => Except.error e
    | Except.ok bubbles =>
      match pyLen bubbles with
      | Except.error e => Except.error e
      | Except.ok n =>
        if 0 < n then
          match pyGetFirst bubbles with
          | Except.error e => Except.error e
          | Except.ok first =>
            match pyGetKey first "data" with
            | Except.error e => Except.error e
            | Except.ok dataField => pyGetKey dataField "description"
        else Except.ok (Json.str "죄송합니다. 응답을 생성할 수 없습니다.")

/-- Lines 102-136: `raise_for_status` raises `requests.exceptions.HTTPError`
(with the response attached) exactly for status codes 400-599, which the
`RequestException` handler classifies by code; a network-level failure has no
response attached and yields the unreachable message.  A 2xx (or other
non-raising) response whose body is not parseable JSON raises
`requests.exceptions.JSONDecodeError` (requests >= 2.27), a
`RequestException` with no response attached, hence also the unreachable
message.  Exceptions from the reply extraction fall to the catch-all
`except Exception` branch. -/
def handleUpstream (up : UpstreamResult) : HttpResponse :=
  match up with
  | UpstreamResult.noResponse => ⟨500, replyObj "챗봇 서비스에 연결할 수 없습니다."⟩
  | UpstreamResult.response status obody =>
    if 400 ≤ status ∧ status ≤ 599 then
      ⟨500, replyObj (if status = 404 then "챗봇 API 주소가 올바르지 않습니다."
        else if status = 401 ∨ status = 403 then "챗봇 인증에 실패했습니다."
        else "챗봇 서비스 오류 (" ++ toString status ++ ")")⟩
    else
      match obody with
      | none => ⟨500, replyObj "챗봇 서비스에 연결할 수 없습니다."⟩
      | some response_data =>
        match extractBotReply response_data with
        | Except.ok reply => ⟨200, Json.obj [("reply", reply)]⟩
        | Except.error _ => ⟨500, replyObj "서버 내부 오류가 발생했습니다."⟩

/-- Lines 63-100 and onwards: build the envelope, serialize it once, sign
that exact string, POST it, and handle the upstream outcome. -/
def sendAndHandle (url sk uuid : String) (timestampMillis : Nat) (msg : String)
    (up : UpstreamResult) : ChatResult :=
  let request_body_string := dumps (buildEnvelope uuid timestampMillis msg)
  ⟨handleUpstream up,
   some ⟨url, "application/json; charset=UTF-8",
     generate_signature sk request_body_string, request_body_string⟩⟩

/-- Lines 55-61 and the dispatch: validate the parsed request body.  A
non-dict body gives 400; `request_data.get('message', '')` defaults to the
empty string; calling `.strip()` on a non-string raises `AttributeError`,
caught by the catch-all branch as a generic 500; a string whose strip is
empty gives 400. -/
def chatBody (url sk : String) (inbound : Option Json) (uuid : String)
    (timestampMillis : Nat) (up : UpstreamResult) : ChatResult :=
  match inbound with
  | some (Json.obj fields) =>
    match (fields.lookup "message").getD (Json.str "") with
    | Json.str s =>
      if stripString s = "" then ⟨⟨400, replyObj "메시지를 입력해주세요."⟩, none⟩
      else sendAndHandle url sk uuid timestampMillis s up
    | _ => ⟨⟨500, replyObj "서버 내부 오류가 발생했습니다."⟩, none⟩
  | _ => ⟨⟨400, replyObj "올바른 JSON 객체가 필요합니다."⟩, none⟩

/-- The `/chat` handler: lines 47-136 of `app.py`. -/
def chat (cfg : Config) (inbound : Option Json) (uuid : String)
    (timestampMillis : Nat) (up : UpstreamResult) : ChatResult :=
  if pyTruthy cfg.invokeUrl && pyTruthy cfg.secretKey then
    chatBody (cfg.invokeUrl.getD "") (cfg.secretKey.getD "") inbound uuid timestampMillis up
  else ⟨⟨500, replyObj "챗봇 설정이 올바르지 않습니다. 관리자에게 문의해주세요."⟩, none⟩

/-! ### Claim-side definitions -/

/-- Holds when the `X-NCP-CHATBOT_SIGNATURE` header of the outbound request
(when one was sent) is the base64 of the HMAC-SHA256 digest of the exact
transmitted body bytes under the given secret. -/
def signatureMatchesTransmitted (sk : String) : Option OutboundRequest → Bool
  | none => true
  | some r => r.signature == b64encodeString (hmacSha256 (utf8Bytes sk) (utf8Bytes r.body))

/-- Whether a JSON value is an object with a `reply` field. -/
def hasReplyField : Json → Bool
  | Json.obj fields => (fields.lookup "reply").isSome
  | _ => false

/-- The 400-level validation message the handler uses for a given parsed
request body: the please-enter-a-message reply for JSON objects (missing,
empty or whitespace-only `message`), the JSON-object-required reply
otherwise. -/
def invalidReplyMsg : Option Json → String
  | some (Json.obj _) => "메시지를 입력해주세요."
  | _ => "올바른 JSON 객체가 필요합니다."

/-- The fixed fallback reply (line 112). -/
def fallbackReply : HttpResponse := ⟨200, replyObj "죄송합니다. 응답을 생성할 수 없습니다."⟩

/-- The catch-all internal-error reply (line 136). -/
def internalError : HttpResponse := ⟨500, replyObj "서버 내부 오류가 발생했습니다."⟩

/-- The amended extraction contract, written from the response shape: the
description of element 0 of a present, non-empty `bubbles` list is returned
verbatim when element 0 is an object whose `data` field is an object with a
`description` key; an absent `bubbles` key or an empty `bubbles` value falls
back to the fixed string; every other shape makes the handler raise, which
surfaces as the generic internal error rather than the fallback. -/
def extractorSpec : Json → HttpResponse
  | Json.obj fields =>
    match fields.lookup "bubbles" with
    | none => fallbackReply
    | some (Json.arr []) => fallbackReply
    | some (Json.arr (b0 :: _)) =>
      match b0 with
      | Json.obj f0 =>
        match f0.lookup "data" with
        | some (Json.obj fd) =>
          match fd.lookup "description" with
          | some d => ⟨200, Json.obj [("reply", d)]⟩
          | none => internalError
        | _ => internalError
      | _ => internalError
    | some (Json.str s) => if s.length = 0 then fallbackReply else internalError
    | some (Json.obj g) => if g.length = 0 then fallbackReply else internalError
    | some _ => internalError
  | Json.arr xs => if xs.contains (Json.str "bubbles") then internalError else fallbackReply
  | Json.str s => if containsSeq "bubbles".data s.data then internalError else fallbackReply
  | _ => internalError

/-! ### Helper lemmas: digest shape and base64 round-trip -/

theorem word32Bytes_length (v : Nat) : (word32Bytes v).length = 4 := by
  simp [word32Bytes]

theorem word32Bytes_lt (v : Nat) : ∀ b ∈ word32Bytes v, b < 256 := by
  intro b hb
  simp only [word32Bytes, List.mem_cons, List.not_mem_nil, or_false] at hb
  rcases hb with rfl | rfl | rfl | rfl <;> omega

theorem stateBytes_length (s : Sha256State) : (stateBytes s).length = 32 := by
  simp [stateBytes, word32Bytes]

theorem stateBytes_lt (s : Sha256State) : ∀ b ∈ stateBytes s, b < 256 := by
  intro b hb
  simp only [stateBytes, List.mem_append] at hb
  rcases hb with ((((((h | h) | h) | h) | h) | h) | h) | h <;> exact word32Bytes_lt _ _ h

theorem sha256_length (m : List Nat) : (sha256 m).length = 32 := stateBytes_length _

theorem sha256_lt (m : List Nat) : ∀ b ∈ sha256 m, b < 256 := stateBytes_lt _

theorem hmacSha256_length (key msg : List Nat) : (hmacSha256 key msg).length = 32 :=
  sha256_length _

theorem hmacSha256_lt (key msg : List Nat) : ∀ b ∈ hmacSha256 key msg, b < 256 :=
  sha256_lt _

theorem charToSix_sixToChar : ∀ i < 64, charToSix (sixToChar i) = i := by decide

theorem sixToChar_ne_pad : ∀ i < 64, sixToChar i ≠ '=' := by decide

theorem b64_roundtrip (l : List Nat) (hl : ∀ b ∈ l, b < 256) :
    b64decodeChars (b64encodeBytes l) = l := by
  induction l using b64encodeBytes.induct with
  | case1 => rfl
  | case2 a =>
    have ha : a < 256 := hl a (by simp)
    have e1 : b64encodeBytes [a] = [sixToChar (a / 4), sixToChar (a % 4 * 16), '=', '='] := rfl
    have e2 : b64decodeChars [sixToChar (a / 4), sixToChar (a % 4 * 16), '=', '='] =
        [charToSix (sixToChar (a / 4)) * 4 + charToSix (sixToChar (a % 4 * 16)) / 16] := rfl
    rw [e1, e2, charToSix_sixToChar (a / 4) (by omega),
      charToSix_sixToChar (a % 4 * 16) (by omega)]
    simp only [List.cons.injEq, and_true]
    omega
  | case3 a b =>
    have ha : a < 256 := hl a (by simp)
    have hb : b < 256 := hl b (by simp)
    simp only [b64encodeBytes, b64decodeChars]
    rw [if_neg (sixToChar_ne_pad (b % 16 * 4) (by omega)), if_pos trivial]
    rw [charToSix_sixToChar (a / 4) (by omega),
      charToSix_sixToChar (a % 4 * 16 + b / 16) (by omega),
      charToSix_sixToChar (b % 16 * 4) (by omega)]
    simp only [List.cons.injEq, and_true]
    omega
  | case4 a b c rest ih =>
    have ha : a < 256 := hl a (by simp)
    have hb : b < 256 := hl b (by simp)
    have hc : c < 256 := hl c (by simp)
    simp only [b64encodeBytes, b64decodeChars]
    rw [if_neg (sixToChar_ne_pad (b % 16 * 4 + c / 64) (by omega)),
      if_neg (sixToChar_ne_pad (c % 64) (by omega))]
    rw [charToSix_sixToChar (a / 4) (by omega),
      charToSix_sixToChar (a % 4 * 16 + b / 16) (by omega),
      charToSix_sixToChar (b % 16 * 4 + c / 64) (by omega),
      charToSix_sixToChar (c % 64) (by omega)]
    rw [ih (fun x hx => hl x (by simp [hx]))]
    simp only [List.cons.injEq, and_true]
    omega

/-! ### Handler lemmas -/

/-- With both configuration values present and non-empty, `chat` proceeds
into the request body. -/
theorem chat_configured (url sk : String) (hu : url ≠ "") (hs : sk ≠ "")
    (inbound : Option Json) (uuid : String) (ts : Nat) (up : UpstreamResult) :
    chat ⟨some url, some sk⟩ inbound uuid ts up = chatBody url sk inbound uuid ts up := by
  simp [chat, pyTruthy, hu, hs]

/-- The response the handler produces from a parsed 2xx upstream body agrees
with the shape-directed reading `extractorSpec`. -/
theorem extract_matches_spec (rd : Json) :
    (match extractBotReply rd with
      | Except.ok reply => (⟨200, Json.obj [("reply", reply)]⟩ : HttpResponse)
      | Except.error _ => ⟨500, replyObj "서버 내부 오류가 발생했습니다."⟩) = extractorSpec rd := by
  cases rd with
  | null => rfl
  | bool b => rfl
  | num n => rfl
  | str s =>
    cases h : containsSeq "bubbles".data s.data <;>
      simp [extractBotReply, replyObj, pyContainsKey, pyGetKey, extractorSpec, internalError, fallbackReply, h]
  | arr xs =>
    cases h : xs.contains (Json.str "bubbles") <;>
      simp [extractBotReply, replyObj, pyContainsKey, pyGetKey, extractorSpec, internalError, fallbackReply, h]
  | obj fields =>
    cases hbl : fields.lookup "bubbles" with
    | none =>
      simp [extractBotReply, replyObj, pyContainsKey, extractorSpec, fallbackReply, hbl]
    | some bs =>
      cases bs with
      | null =>
        simp [extractBotReply, replyObj, pyContainsKey, pyGetKey, pyLen, extractorSpec, internalError, hbl]
      | bool b =>
        simp [extractBotReply, replyObj, pyContainsKey, pyGetKey, pyLen, extractorSpec, internalError, hbl]
      | num n =>
        simp [extractBotReply, replyObj, pyContainsKey, pyGetKey, pyLen, extractorSpec, internalError, hbl]
      | str s =>
        obtain ⟨cs⟩ := s
        cases cs with
        | nil =>
          simp [extractBotReply, replyObj, pyContainsKey, pyGetKey, pyLen, pyGetFirst, extractorSpec,
            internalError, fallbackReply, hbl, String.length]
        | cons c rest =>
          simp [extractBotReply, replyObj, pyContainsKey, pyGetKey, pyLen, pyGetFirst, extractorSpec,
            internalError, fallbackReply, hbl, String.length]
      | obj g =>
        cases g with
        | nil =>
          simp [extractBotReply, replyObj, pyContainsKey, pyGetKey, pyLen, pyGetFirst, extractorSpec,
            internalError, fallbackReply, hbl]
        | cons kv rest =>
          simp [extractBotReply, replyObj, pyContainsKey, pyGetKey, pyLen, pyGetFirst, extractorSpec,
            internalError, fallbackReply, hbl]
      | arr xs =>
        cases xs with
        | nil =>
          simp [extractBotReply, replyObj, pyContainsKey, pyGetKey, pyLen, extractorSpec, fallbackReply, hbl]
        | cons b0 rest =>
          cases b0 with
          | obj f0 =>
            cases hd : f0.lookup "data" with
            | none =>
              simp [extractBotReply, replyObj, pyContainsKey, pyGetKey, pyLen, pyGetFirst, extractorSpec,
                internalError, hbl, hd]
            | some dv =>
              cases dv with
              | obj fd =>
                cases hdesc : fd.lookup "description" with
                | none =>
                  simp [extractBotReply, replyObj, pyContainsKey, pyGetKey, pyLen, pyGetFirst, extractorSpec,
                    internalError, hbl, hd, hdesc]
                | some d =>
                  simp [extractBotReply, replyObj, pyContainsKey, pyGetKey, pyLen, pyGetFirst, extractorSpec,
                    hbl, hd, hdesc]
              | null =>
                simp [extractBotReply, replyObj, pyContainsKey, pyGetKey, pyLen, pyGetFirst, extractorSpec,
                  internalError, hbl, hd]
              | bool b =>
                simp [extractBotReply, replyObj, pyContainsKey, pyGetKey, pyLen, pyGetFirst, extractorSpec,
                  internalError, hbl, hd]
              | num n =>
                simp [extractBotReply, replyObj, pyContainsKey, pyGetKey, pyLen, pyGetFirst, extractorSpec,
                  internalError, hbl, hd]
              | str s2 =>
                simp [extractBotReply, replyObj, pyContainsKey, pyGetKey, pyLen, pyGetFirst, extractorSpec,
                  internalError, hbl, hd]
              | arr ys =>
                simp [extractBotReply, replyObj, pyContainsKey, pyGetKey, pyLen, pyGetFirst, extractorSpec,
                  internalError, hbl, hd]
          | null =>
            simp [extractBotReply, replyObj, pyContainsKey, pyGetKey, pyLen, pyGetFirst, extractorSpec,
              internalError, hbl]
          | bool b =>
            simp [extractBotReply, replyObj, pyContainsKey, pyGetKey, pyLen, pyGetFirst, extractorSpec,
              internalError, hbl]
          | num n =>
            simp [extractBotReply, replyObj, pyContainsKey, pyGetKey, pyLen, pyGetFirst, extractorSpec,
              internalError, hbl]
          | str s2 =>
            simp [extractBotReply, replyObj, pyContainsKey, pyGetKey, pyLen, pyGetFirst, extractorSpec,
              internalError, hbl]
          | arr ys =>
            simp [extractBotReply, replyObj, pyContainsKey, pyGetKey, pyLen, pyGetFirst, extractorSpec,
              internalError, hbl]

/-- Every branch of `handleUpstream` produces a body with a `reply` field. -/
theorem handleUpstream_hasReply (up : UpstreamResult) :
    hasReplyField (handleUpstream up).body = true := by
  cases up with
  | noResponse => rfl
  | response status obody =>
    simp only [handleUpstream]
    split
    · rfl
    · cases obody with
      | none => rfl
      | some rd =>
        cases h : extractBotReply rd <;> simp [h, hasReplyField, replyObj]

/-- Whatever the request and upstream outcome, any outbound request the
body of `chat` produces is signed over its exact transmitted body. -/
theorem chatBody_signature (url sk : String) (inbound : Option Json) (uuid : String)
    (ts : Nat) (up : UpstreamResult) :
    signatureMatchesTransmitted sk (chatBody url sk inbound uuid ts up).outbound = true := by
  cases inbound with
  | none => rfl
  | some j =>
    cases j with
    | obj fields =>
      cases hm : (fields.lookup "message").getD (Json.str "") with
      | str s =>
        by_cases hst : stripString s = ""
        · simp [chatBody, hm, hst, signatureMatchesTransmitted]
        · simp [chatBody, hm, hst, signatureMatchesTransmitted, sendAndHandle,
            generate_signature, b64encodeString]
      | null => simp [chatBody, hm, signatureMatchesTransmitted]
      | bool b => simp [chatBody, hm, signatureMatchesTransmitted]
      | num n => simp [chatBody, hm, signatureMatchesTransmitted]
      | arr xs => simp [chatBody, hm, signatureMatchesTransmitted]
      | obj fs => simp [chatBody, hm, signatureMatchesTransmitted]
    | null => rfl
    | bool b => rfl
    | num n => rfl
    | str s => rfl
    | arr xs => rfl

/-! ### Claim theorems -/

/-- C1: for every secret string and every body string, the signature sent in
the `X-NCP-CHATBOT_SIGNATURE` header equals the standard base64 encoding of
the raw HMAC-SHA256 digest computed with key = UTF-8 bytes of the secret
over message = UTF-8 bytes of the body string, and the byte string that is
signed is byte-identical to the byte string transmitted as the POST body:
`generate_signature` is that composition, and whenever the handler performs
an outbound call, the header it sets is the HMAC-SHA256-base64 of the exact
transmitted body string under the configured secret. -/
theorem chat_signature_is_hmac_base64 (secret body url : String) (inbound : Option Json)
    (uuid : String) (ts : Nat) (up : UpstreamResult) :
    generate_signature secret body
        = b64encodeString (hmacSha256 (utf8Bytes secret) (utf8Bytes body))
      ∧ signatureMatchesTransmitted secret
          (chat ⟨some url, some secret⟩ inbound uuid ts up).outbound = true := by
  refine ⟨rfl, ?_⟩
  rcases Bool.eq_false_or_eq_true (pyTruthy (some url) && pyTruthy (some secret)) with hc | hc
  · simp only [chat, hc, if_true, Option.getD_some]
    exact chatBody_signature url secret inbound uuid ts up
  · simp [chat, hc, signatureMatchesTransmitted]

/-- C2 (amended): for every validated request, the envelope sent upstream is
exactly the JSON object with version `"v2"`, userId = the identifier
generated for this request, timestamp = the millisecond clock reading taken
for this request, bubbles = `[{type: "text", data: {description: m}}]`
where `m` is the message string exactly as received (NOT trimmed), and
event = `"send"`; the transmitted body is its `json.dumps` serialization
and the signature is computed over that same string. -/
theorem chat_sends_exact_envelope (url sk uuid m : String) (ts : Nat)
    (fields : List (String × Json)) (up : UpstreamResult)
    (hu : url ≠ "") (hs : sk ≠ "")
    (hmsg : fields.lookup "message" = some (Json.str m))
    (hm : stripString m ≠ "") :
    (chat ⟨some url, some sk⟩ (some (Json.obj fields)) uuid ts up).outbound =
      some ⟨url, "application/json; charset=UTF-8",
        generate_signature sk (dumps (Json.obj
          [("version", Json.str "v2"),
           ("userId", Json.str uuid),
           ("timestamp", Json.num (Int.ofNat ts)),
           ("bubbles", Json.arr [Json.obj [("type", Json.str "text"),
              ("data", Json.obj [("description", Json.str m)])]]),
           ("event", Json.str "send")])),
        dumps (Json.obj
          [("version", Json.str "v2"),
           ("userId", Json.str uuid),
           ("timestamp", Json.num (Int.ofNat ts)),
           ("bubbles", Json.arr [Json.obj [("type", Json.str "text"),
              ("data", Json.obj [("description", Json.str m)])]]),
           ("event", Json.str "send")])⟩ := by
  rw [chat_configured url sk hu hs]
  simp [chatBody, hmsg, hm, sendAndHandle, buildEnvelope]

/-- C2 witness: a concrete validated request produces exactly the predicted
envelope, serialization and signature. -/
theorem chat_sends_exact_envelope_witness :
    (chat ⟨some "https://u", some "sek"⟩ (some (Json.obj [("message", Json.str "hello")]))
        "uuid-1" 123 UpstreamResult.noResponse).outbound =
      some ⟨"https://u", "application/json; charset=UTF-8",
        generate_signature "sek" (dumps (Json.obj
          [("version", Json.str "v2"),
           ("userId", Json.str "uuid-1"),
           ("timestamp", Json.num (Int.ofNat 123)),
           ("bubbles", Json.arr [Json.obj [("type", Json.str "text"),
              ("data", Json.obj [("description", Json.str "hello")])]]),
           ("event", Json.str "send")])),
        dumps (Json.obj
          [("version", Json.str "v2"),
           ("userId", Json.str "uuid-1"),
           ("timestamp", Json.num (Int.ofNat 123)),
           ("bubbles", Json.arr [Json.obj [("type", Json.str "text"),
              ("data", Json.obj [("description", Json.str "hello")])]]),
           ("event", Json.str "send")])⟩ :=
  chat_sends_exact_envelope "https://u" "sek" "uuid-1" "hello" 123
    [("message", Json.str "hello")] UpstreamResult.noResponse
    (by decide) (by decide) rfl (by decide)

/-- C2 counterexample: with message `" hi "` the transmitted envelope carries
the description `" hi "` exactly as received, which differs from the
serialization the claim predicts with the trimmed string `"hi"`. -/
theorem chat_envelope_not_trimmed :
    (chat ⟨some "https://u", some "sek"⟩ (some (Json.obj [("message", Json.str " hi ")]))
        "uuid-1" 7 UpstreamResult.noResponse).outbound.map OutboundRequest.body
      = some (dumps (buildEnvelope "uuid-1" 7 " hi "))
    ∧ dumps (buildEnvelope "uuid-1" 7 " hi ")
        ≠ dumps (buildEnvelope "uuid-1" 7 (stripString " hi ")) :=
  ⟨rfl, by decide⟩

/-- C3 (amended): provided the upstream URL and the secret are configured
(non-empty), every request whose body is not a JSON object, or whose
`message` field is missing, empty or whitespace-only, is answered with
HTTP 400 — carrying the please-enter-a-message reply in the object case —
and no outbound network call is performed. -/
theorem chat_rejects_invalid_input (url sk uuid : String) (ts : Nat)
    (inbound : Option Json) (up : UpstreamResult)
    (hu : url ≠ "") (hs : sk ≠ "")
    (hinv : (∀ fields, inbound ≠ some (Json.obj fields)) ∨
      ∃ fields s, inbound = some (Json.obj fields) ∧
        (fields.lookup "message").getD (Json.str "") = Json.str s ∧ stripString s = "") :
    chat ⟨some url, some sk⟩ inbound uuid ts up =
      ⟨⟨400, replyObj (invalidReplyMsg inbound)⟩, none⟩ := by
  rw [chat_configured url sk hu hs]
  rcases hinv with h | ⟨fields, s, rfl, hget, hstrip⟩
  · cases inbound with
    | none => rfl
    | some j =>
      cases j with
      | obj fields => exact absurd rfl (h fields)
      | null => rfl
      | bool b => rfl
      | num n => rfl
      | str s => rfl
      | arr xs => rfl
  · simp [chatBody, hget, hstrip, invalidReplyMsg]

/-- C3 witness: a whitespace-only message on a configured instance gets
HTTP 400, the please-enter-a-message reply, and no outbound call. -/
theorem chat_rejects_invalid_input_witness :
    chat ⟨some "https://u", some "sek"⟩ (some (Json.obj [("message", Json.str "  ")]))
        "uuid-1" 0 UpstreamResult.noResponse =
      ⟨⟨400, replyObj (invalidReplyMsg (some (Json.obj [("message", Json.str "  ")])))⟩, none⟩ :=
  chat_rejects_invalid_input "https://u" "sek" "uuid-1" 0
    (some (Json.obj [("message", Json.str "  ")])) UpstreamResult.noResponse
    (by decide) (by decide)
    (Or.inr ⟨[("message", Json.str "  ")], "  ", rfl, rfl, by decide⟩)

/-- C3 counterexample: the claim quantifies over every inbound request, but
when the configuration is absent the configuration check runs first, so a
whitespace-only message is answered with HTTP 500 (configuration error),
not HTTP 400. -/
theorem chat_invalid_input_unconfigured :
    chat ⟨none, none⟩ (some (Json.obj [("message", Json.str "  ")])) "uuid-1" 0
        UpstreamResult.noResponse
      = ⟨⟨500, replyObj "챗봇 설정이 올바르지 않습니다. 관리자에게 문의해주세요."⟩, none⟩
    ∧ (500 : Nat) ≠ 400 :=
  ⟨rfl, by decide⟩

/-- C4: whenever the upstream invoke URL or the shared secret is absent from
the configuration, every `/chat` request is answered with HTTP 500 and the
configuration-error reply, and no outbound network call is attempted. -/
theorem chat_missing_config_short_circuits (cfg : Config) (inbound : Option Json)
    (uuid : String) (ts : Nat) (up : UpstreamResult)
    (h : cfg.invokeUrl = none ∨ cfg.secretKey = none) :
    chat cfg inbound uuid ts up =
      ⟨⟨500, replyObj "챗봇 설정이 올바르지 않습니다. 관리자에게 문의해주세요."⟩, none⟩ := by
  obtain ⟨u, k⟩ := cfg
  rcases h with h | h <;> subst h <;> simp [chat, pyTruthy]

/-- C4 witness: with both configuration values absent, a well-formed request
still gets the configuration error and no outbound call. -/
theorem chat_missing_config_short_circuits_witness :
    chat ⟨none, none⟩ (some (Json.obj [("message", Json.str "hello")])) "uuid-1" 0
        UpstreamResult.noResponse =
      ⟨⟨500, replyObj "챗봇 설정이 올바르지 않습니다. 관리자에게 문의해주세요."⟩, none⟩ :=
  chat_missing_config_short_circuits ⟨none, none⟩
    (some (Json.obj [("message", Json.str "hello")])) "uuid-1" 0
    UpstreamResult.noResponse (Or.inl rfl)

/-- C5 (amended): for every upstream HTTP response whose status code is in
400..599 (the codes `raise_for_status` raises for), `/chat` returns HTTP
500 with the code-determined message: 404 the endpoint-misconfigured
message, 401/403 the authentication-failed message, every other such code
the generic upstream-service-error message carrying the code; a
network-level failure with no response yields HTTP 500 with the
unreachable message.  A delivered non-2xx response outside 400..599 is not
classified by this mapping (see the counterexample for what the handler
does instead). -/
theorem chat_upstream_error_mapping (url sk uuid m : String) (ts status : Nat)
    (obody : Option Json)
    (hu : url ≠ "") (hs : sk ≠ "") (hm : stripString m ≠ "")
    (hst : 400 ≤ status ∧ status ≤ 599) :
    (chat ⟨some url, some sk⟩ (some (Json.obj [("message", Json.str m)])) uuid ts
        (UpstreamResult.response status obody)).response
      = ⟨500, replyObj (if status = 404 then "챗봇 API 주소가 올바르지 않습니다."
          else if status = 401 ∨ status = 403 then "챗봇 인증에 실패했습니다."
          else "챗봇 서비스 오류 (" ++ toString status ++ ")")⟩
    ∧ (chat ⟨some url, some sk⟩ (some (Json.obj [("message", Json.str m)])) uuid ts
        UpstreamResult.noResponse).response
      = ⟨500, replyObj "챗봇 서비스에 연결할 수 없습니다."⟩ := by
  constructor
  · rw [chat_configured url sk hu hs]
    simp [chatBody, List.lookup, hm, sendAndHandle, handleUpstream, hst]
  · rw [chat_configured url sk hu hs]
    simp [chatBody, List.lookup, hm, sendAndHandle, handleUpstream]

/-- C5 witness: a 404 upstream response yields the endpoint-misconfigured
message, and a network failure the unreachable message. -/
theorem chat_upstream_error_mapping_witness :
    (chat ⟨some "https://u", some "sek"⟩ (some (Json.obj [("message", Json.str "hello")]))
        "uuid-1" 0 (UpstreamResult.response 404 none)).response
      = ⟨500, replyObj (if 404 = 404 then "챗봇 API 주소가 올바르지 않습니다."
          else if 404 = 401 ∨ 404 = 403 then "챗봇 인증에 실패했습니다."
          else "챗봇 서비스 오류 (" ++ toString 404 ++ ")")⟩
    ∧ (chat ⟨some "https://u", some "sek"⟩ (some (Json.obj [("message", Json.str "hello")]))
        "uuid-1" 0 UpstreamResult.noResponse).response
      = ⟨500, replyObj "챗봇 서비스에 연결할 수 없습니다."⟩ :=
  chat_upstream_error_mapping "https://u" "sek" "uuid-1" "hello" 0 404 none
    (by decide) (by decide) (by decide) (by omega)

/-- C5 counterexample: non-2xx statuses outside 400..599 do not get the
claimed upstream-error 500.  A 300 (Multiple Choices) response — which
`requests` does not auto-follow and which may carry a body — with a JSON
object body flows into reply extraction and returns HTTP 200 with the
fallback string; and a 304, whose body `http.client` forces empty so that
`response.json()` raises a `RequestException` with no attached response,
yields the unreachable message rather than the status-coded
upstream-service-error message the claim requires for every non-2xx
status. -/
theorem chat_300_not_upstream_error :
    (chat ⟨some "https://u", some "sek"⟩ (some (Json.obj [("message", Json.str "hello")]))
        "uuid-1" 0 (UpstreamResult.response 300 (some (Json.obj [])))).response
      = ⟨200, replyObj "죄송합니다. 응답을 생성할 수 없습니다."⟩
    ∧ (chat ⟨some "https://u", some "sek"⟩ (some (Json.obj [("message", Json.str "hello")]))
        "uuid-1" 0 (UpstreamResult.response 304 none)).response
      = ⟨500, replyObj "챗봇 서비스에 연결할 수 없습니다."⟩ :=
  ⟨rfl, rfl⟩

/-- C6 (amended): for every parsed upstream JSON response to a validated
request, the handler's reply follows `extractorSpec`: the description of
element 0 of the `bubbles` list is returned verbatim when the list is
present and non-empty AND element 0 is an object whose `data` field is an
object carrying a `description` key; an absent `bubbles` key or an empty
`bubbles` value yields the fixed fallback string; every other malformed
shape makes the extraction raise, which the catch-all handler converts to
the generic internal-error 500 — NOT the fallback. -/
theorem chat_reply_extraction (url sk uuid m : String) (ts : Nat) (rd : Json)
    (hu : url ≠ "") (hs : sk ≠ "") (hm : stripString m ≠ "") :
    (chat ⟨some url, some sk⟩ (some (Json.obj [("message", Json.str m)])) uuid ts
        (UpstreamResult.response 200 (some rd))).response = extractorSpec rd := by
  rw [chat_configured url sk hu hs]
  simp only [chatBody, List.lookup, beq_self_eq_true, Option.getD_some]
  rw [if_neg hm]
  simp only [sendAndHandle, handleUpstream]
  rw [if_neg (by omega : ¬ (400 ≤ 200 ∧ 200 ≤ 599))]
  exact extract_matches_spec rd

/-- C6 witness: a well-formed one-bubble response is returned verbatim. -/
theorem chat_reply_extraction_witness :
    (chat ⟨some "https://u", some "sek"⟩ (some (Json.obj [("message", Json.str "hello")]))
        "uuid-1" 0 (UpstreamResult.response 200 (some (Json.obj [("bubbles",
          Json.arr [Json.obj [("type", Json.str "text"),
            ("data", Json.obj [("description", Json.str "the reply")])]])])))).response
      = extractorSpec (Json.obj [("bubbles",
          Json.arr [Json.obj [("type", Json.str "text"),
            ("data", Json.obj [("description", Json.str "the reply")])]])]) :=
  chat_reply_extraction "https://u" "sek" "uuid-1" "hello" 0
    (Json.obj [("bubbles", Json.arr [Json.obj [("type", Json.str "text"),
      ("data", Json.obj [("description", Json.str "the reply")])]])])
    (by decide) (by decide) (by decide)

/-- C6 counterexample: with `bubbles` present and non-empty but element 0
lacking `data`, the extraction raises (`KeyError`) and the handler returns
the generic internal-error 500 — not the fallback string the claim
promises for every malformed field. -/
theorem chat_malformed_bubble_raises :
    (chat ⟨some "https://u", some "sek"⟩ (some (Json.obj [("message", Json.str "hello")]))
        "uuid-1" 0 (UpstreamResult.response 200
          (some (Json.obj [("bubbles", Json.arr [Json.obj []])])))).response
      = ⟨500, replyObj "서버 내부 오류가 발생했습니다."⟩
    ∧ ("서버 내부 오류가 발생했습니다." : String) ≠ "죄송합니다. 응답을 생성할 수 없습니다." :=
  ⟨rfl, by decide⟩

/-- C7: the signing function is deterministic — in this purely functional
embedding two invocations of `generate_signature` on the same
(secret, body) pair are the same term, hence yield the identical
signature string. -/
theorem generate_signature_deterministic (secret body : String) :
    generate_signature secret body = generate_signature secret body := rfl

/-- C8: for every secret and every body string, base64-decoding the
signature produced by `generate_signature` yields exactly 32 bytes, the
SHA-256 digest length. -/
theorem signature_decodes_to_32_bytes (secret body : String) :
    (b64decodeChars (generate_signature secret body).data).length = 32 := by
  have hdata : (generate_signature secret body).data
      = b64encodeBytes (hmacSha256 (utf8Bytes secret) (utf8Bytes body)) := rfl
  rw [hdata, b64_roundtrip _ (hmacSha256_lt _ _), hmacSha256_length]

/-- C9: for every inbound request, configuration and upstream outcome, the
handler returns a JSON object carrying a `reply` field; `chat` is total, so
no exception propagates to the caller as a raw fault. -/
theorem chat_always_has_reply (cfg : Config) (inbound : Option Json) (uuid : String)
    (ts : Nat) (up : UpstreamResult) :
    hasReplyField (chat cfg inbound uuid ts up).response.body = true := by
  rcases Bool.eq_false_or_eq_true (pyTruthy cfg.invokeUrl && pyTruthy cfg.secretKey) with hc | hc
  · simp only [chat, hc, if_true]
    cases inbound with
    | none => rfl
    | some j =>
      cases j with
      | obj fields =>
        cases hm : (fields.lookup "message").getD (Json.str "") with
        | str s =>
          by_cases hst : stripString s = ""
          · simp [chatBody, hm, hst, hasReplyField, replyObj]
          · simp only [chatBody, hm]
            rw [if_neg hst]
            exact handleUpstream_hasReply up
        | null => simp [chatBody, hm, hasReplyField, replyObj]
        | bool b => simp [chatBody, hm, hasReplyField, replyObj]
        | num n => simp [chatBody, hm, hasReplyField, replyObj]
        | arr xs => simp [chatBody, hm, hasReplyField, replyObj]
        | obj fs => simp [chatBody, hm, hasReplyField, replyObj]
      | null => rfl
      | bool b => rfl
      | num n => rfl
      | str s => rfl
      | arr xs => rfl
  · simp [chat, hc, hasReplyField, replyObj]

/-- C10 (amended): provided the upstream URL and the secret are configured,
every request whose JSON object body binds `message` to a non-string value
is answered with HTTP 500 and the generic internal-error message (the
`.strip()` call raises `AttributeError`, caught by the catch-all handler),
not HTTP 400, and no outbound call is made. -/
theorem chat_nonstring_message_internal (url sk uuid : String) (ts : Nat)
    (fields : List (String × Json)) (v : Json) (up : UpstreamResult)
    (hu : url ≠ "") (hs : sk ≠ "")
    (hmsg : fields.lookup "message" = some v)
    (hv : ∀ s, v ≠ Json.str s) :
    chat ⟨some url, some sk⟩ (some (Json.obj fields)) uuid ts up =
      ⟨⟨500, replyObj "서버 내부 오류가 발생했습니다."⟩, none⟩ := by
  rw [chat_configured url sk hu hs]
  cases v with
  | str s => exact absurd rfl (hv s)
  | null => simp [chatBody, hmsg]
  | bool b => simp [chatBody, hmsg]
  | num n => simp [chatBody, hmsg]
  | arr xs => simp [chatBody, hmsg]
  | obj fs => simp [chatBody, hmsg]

/-- C10 witness: a numeric `message` on a configured instance yields the
generic internal-error 500. -/
theorem chat_nonstring_message_internal_witness :
    chat ⟨some "https://u", some "sek"⟩ (some (Json.obj [("message", Json.num 3)]))
        "uuid-1" 0 UpstreamResult.noResponse =
      ⟨⟨500, replyObj "서버 내부 오류가 발생했습니다."⟩, none⟩ :=
  chat_nonstring_message_internal "https://u" "sek" "uuid-1" 0
    [("message", Json.num 3)] (Json.num 3) UpstreamResult.noResponse
    (by decide) (by decide) rfl (fun s h => Json.noConfusion h)

/-- C10 counterexample: the claim quantifies over every request with a
non-string `message`, but when the configuration is absent the handler
answers with the configuration-error message, not the generic
internal-error message. -/
theorem chat_nonstring_message_unconfigured :
    chat ⟨none, none⟩ (some (Json.obj [("message", Json.num 3)])) "uuid-1" 0
        UpstreamResult.noResponse
      = ⟨⟨500, replyObj "챗봇 설정이 올바르지 않습니다. 관리자에게 문의해주세요."⟩, none⟩
    ∧ ("챗봇 설정이 올바르지 않습니다. 관리자에게 문의해주세요." : String)
        ≠ "서버 내부 오류가 발생했습니다." :=
  ⟨rfl, by decide⟩

end MovieBackend
